import Mathlib

/-!
Verification of the DOLFIN `IntersectionConstruction` geometric-intersection
library against its natural-language specification.

The intersection functions themselves are transliterated from
`IntersectionConstruction.cpp`.  Coordinates are embedded as exact rationals
(`ℚ`); the C++ code uses `double`, but all the properties checked here —
branch structure, sign tests, exact point equality, the algebraic formulas —
are faithfully reflected by the exact-arithmetic embedding.

External collaborators that the spec declares out of scope (orientation
predicates, collision predicates, `GeometryTools` helpers, the `Point` class,
`add_if_equal`, epsilon constants, `dolfin_error`, mesh-entity accessors) are
not part of the source; they are modelled from the spec, each marked with a
doc comment starting with `Modelled from the spec:`.
-/

set_option autoImplicit false
set_option maxHeartbeats 2000000
set_option maxRecDepth 4000

namespace DolfinGeometry

/-- Modelled from the spec: the DOLFIN `Point` class (an external linear-algebra
primitive), "an ordered tuple of 1–3 real coordinates; equality is exact
(component-wise)".  A DOLFIN `Point` always stores three coordinates; lower
ambient dimensions leave trailing coordinates at zero. -/
structure Pt where
  x : ℚ
  y : ℚ
  z : ℚ
deriving DecidableEq, Repr

instance : Add Pt := ⟨fun a b => ⟨a.x + b.x, a.y + b.y, a.z + b.z⟩⟩

instance : Sub Pt := ⟨fun a b => ⟨a.x - b.x, a.y - b.y, a.z - b.z⟩⟩

instance : Neg Pt := ⟨fun a => ⟨-a.x, -a.y, -a.z⟩⟩

instance : SMul ℚ Pt := ⟨fun c a => ⟨c * a.x, c * a.y, c * a.z⟩⟩

/-- Modelled from the spec: coordinate access `p[i]` on a `Point`. -/
def Pt.coord (p : Pt) (i : ℕ) : ℚ :=
  if i = 0 then p.x else if i = 1 then p.y else p.z

/-- Modelled from the spec: `Point::dot`. -/
def Pt.dot (a b : Pt) : ℚ := a.x * b.x + a.y * b.y + a.z * b.z

/-- Modelled from the spec: `Point::cross`. -/
def Pt.cross (a b : Pt) : Pt :=
  ⟨a.y * b.z - a.z * b.y, a.z * b.x - a.x * b.z, a.x * b.y - a.y * b.x⟩

/-- Modelled from the spec: `Point::squared_norm`. -/
def Pt.squared_norm (a : Pt) : ℚ := a.x * a.x + a.y * a.y + a.z * a.z

/-- Modelled from the spec: `Point::squared_distance`. -/
def Pt.squared_distance (a b : Pt) : ℚ :=
  (a.x - b.x) * (a.x - b.x) + (a.y - b.y) * (a.y - b.y) + (a.z - b.z) * (a.z - b.z)

/-- The all-zero point, the value of the default `Point()` constructor. -/
def zeroPt : Pt := ⟨0, 0, 0⟩

/-- Modelled from the spec: the global epsilon constant `ε_large`
(`DOLFIN_EPS_LARGE`), one of the "global epsilon/tolerance constants" the spec
treats as an external collaborator; the DOLFIN value 1e-14 is used. -/
def DOLFIN_EPS_LARGE : ℚ := 1 / 100000000000000

/-- The absolute value `std::abs` on exact rationals, written with an explicit
comparison. -/
def rabs (a : ℚ) : ℚ := if a < 0 then -a else a

/-- Modelled from the spec: the 1D orientation predicate `orient1d(a, b, x)`
of the external predicate layer.  Per the spec the 1D variant "collapses to
direct scalar interval-overlap comparison": the result is 0 when `x` lies in
the closed interval spanned by `a` and `b` ("zero denotes exact incidence"),
and is signed by the side of the interval otherwise. -/
def orient1d (a b x : ℚ) : ℚ :=
  if x < a ∧ x < b then -1 else if x > a ∧ x > b then 1 else 0

/-- Modelled from the spec: the sign-exact planar orientation predicate
`orient2d(a, b, c)` (Shewchuk convention), computed exactly over `ℚ`. -/
def orient2d (a b c : Pt) : ℚ :=
  (a.x - c.x) * (b.y - c.y) - (a.y - c.y) * (b.x - c.x)

/-- Modelled from the spec: the sign-exact spatial orientation predicate
`orient3d(a, b, c, d)` (Shewchuk convention), computed exactly over `ℚ`. -/
def orient3d (a b c d : Pt) : ℚ :=
  (a.x - d.x) * ((b.y - d.y) * (c.z - d.z) - (b.z - d.z) * (c.y - d.y))
  - (a.y - d.y) * ((b.x - d.x) * (c.z - d.z) - (b.z - d.z) * (c.x - d.x))
  + (a.z - d.z) * ((b.x - d.x) * (c.y - d.y) - (b.y - d.y) * (c.x - d.x))

/-- Modelled from the spec: `GeometryTools::major_axis_2d`, the "dominant
coordinate axis" of a 2D vector; ties (including the zero vector) resolve to
axis 0. -/
def major_axis_2d (v : Pt) : ℕ :=
  if rabs v.x ≥ rabs v.y then 0 else 1

/-- Modelled from the spec: `GeometryTools::major_axis_3d`; ties resolve to
the smaller axis index. -/
def major_axis_3d (v : Pt) : ℕ :=
  if rabs v.x ≥ rabs v.y ∧ rabs v.x ≥ rabs v.z then 0
  else if rabs v.y ≥ rabs v.z then 1 else 2

/-- Modelled from the spec: `GeometryTools::project_to_axis_2d`. -/
def project_to_axis_2d (p : Pt) (axis : ℕ) : ℚ := p.coord axis

/-- Modelled from the spec: `GeometryTools::project_to_plane_3d`, dropping the
given axis. -/
def project_to_plane_3d (p : Pt) (axis : ℕ) : Pt :=
  if axis = 0 then ⟨p.y, p.z, 0⟩ else if axis = 1 then ⟨p.x, p.z, 0⟩ else ⟨p.x, p.y, 0⟩

/-- Modelled from the spec: `GeometryTools::cross_product(a, b, c)`, the cross
product of the edge vectors out of `a`. -/
def cross_product (a b c : Pt) : Pt := Pt.cross (b - a) (c - a)

/-- Modelled from the spec: `CollisionPredicates::collides_segment_point_1d`,
an exact closed-interval membership test. -/
def collides_segment_point_1d (p0 p1 x : ℚ) : Prop :=
  (p0 ≤ x ∧ x ≤ p1) ∨ (p1 ≤ x ∧ x ≤ p0)

instance (p0 p1 x : ℚ) : Decidable (collides_segment_point_1d p0 p1 x) := by
  unfold collides_segment_point_1d; infer_instance

/-- Modelled from the spec: `CollisionPredicates::collides_segment_point_2d`,
exact containment of a point in a closed 2D segment: collinearity plus
bounding-box membership. -/
def collides_segment_point_2d (p0 p1 x : Pt) : Prop :=
  orient2d p0 p1 x = 0
  ∧ collides_segment_point_1d p0.x p1.x x.x
  ∧ collides_segment_point_1d p0.y p1.y x.y

instance (p0 p1 x : Pt) : Decidable (collides_segment_point_2d p0 p1 x) := by
  unfold collides_segment_point_2d; infer_instance

/-- Modelled from the spec: `CollisionPredicates::collides_segment_point_3d`,
exact containment of a point in a closed 3D segment. -/
def collides_segment_point_3d (p0 p1 x : Pt) : Prop :=
  Pt.cross (p1 - p0) (x - p0) = zeroPt
  ∧ collides_segment_point_1d p0.x p1.x x.x
  ∧ collides_segment_point_1d p0.y p1.y x.y
  ∧ collides_segment_point_1d p0.z p1.z x.z

instance (p0 p1 x : Pt) : Decidable (collides_segment_point_3d p0 p1 x) := by
  unfold collides_segment_point_3d; infer_instance

/-- Modelled from the spec: `CollisionPredicates::collides_triangle_point_2d`,
exact closed-triangle membership via orientation signs. -/
def collides_triangle_point_2d (p0 p1 p2 x : Pt) : Prop :=
  (orient2d p0 p1 x ≥ 0 ∧ orient2d p1 p2 x ≥ 0 ∧ orient2d p2 p0 x ≥ 0)
  ∨ (orient2d p0 p1 x ≤ 0 ∧ orient2d p1 p2 x ≤ 0 ∧ orient2d p2 p0 x ≤ 0)

instance (p0 p1 p2 x : Pt) : Decidable (collides_triangle_point_2d p0 p1 p2 x) := by
  unfold collides_triangle_point_2d; infer_instance

/-- Modelled from the spec: `CollisionPredicates::collides_triangle_point_3d`,
coplanarity with the triangle plus 2D containment in the projection onto the
plane of the triangle normal's major axis. -/
def collides_triangle_point_3d (p0 p1 p2 x : Pt) : Prop :=
  orient3d p0 p1 p2 x = 0
  ∧ collides_triangle_point_2d
      (project_to_plane_3d p0 (major_axis_3d (cross_product p0 p1 p2)))
      (project_to_plane_3d p1 (major_axis_3d (cross_product p0 p1 p2)))
      (project_to_plane_3d p2 (major_axis_3d (cross_product p0 p1 p2)))
      (project_to_plane_3d x (major_axis_3d (cross_product p0 p1 p2)))

instance (p0 p1 p2 x : Pt) : Decidable (collides_triangle_point_3d p0 p1 p2 x) := by
  unfold collides_triangle_point_3d; infer_instance

/-- Modelled from the spec: `CollisionPredicates::collides_tetrahedron_point_3d`,
exact closed-tetrahedron membership via consistent orientation signs. -/
def collides_tetrahedron_point_3d (p0 p1 p2 p3 x : Pt) : Prop :=
  (orient3d p0 p1 p2 p3 ≥ 0 ∧ orient3d x p1 p2 p3 ≥ 0 ∧ orient3d p0 x p2 p3 ≥ 0
    ∧ orient3d p0 p1 x p3 ≥ 0 ∧ orient3d p0 p1 p2 x ≥ 0)
  ∨ (orient3d p0 p1 p2 p3 ≤ 0 ∧ orient3d x p1 p2 p3 ≤ 0 ∧ orient3d p0 x p2 p3 ≤ 0
    ∧ orient3d p0 p1 x p3 ≤ 0 ∧ orient3d p0 p1 p2 x ≤ 0)

instance (p0 p1 p2 p3 x : Pt) : Decidable (collides_tetrahedron_point_3d p0 p1 p2 p3 x) := by
  unfold collides_tetrahedron_point_3d; infer_instance

/-- Modelled from the spec: the "dedicated 3D segment/segment collision
predicate" consumed as a black box by the 3D segment intersector.  Exact test:
either some endpoint lies on the other segment (covering collinear,
degenerate and touching cases), or the segments are coplanar and each one
strictly straddles the other's line. -/
def collides_segment_segment_3d (p0 p1 q0 q1 : Pt) : Prop :=
  collides_segment_point_3d q0 q1 p0 ∨ collides_segment_point_3d q0 q1 p1
  ∨ collides_segment_point_3d p0 p1 q0 ∨ collides_segment_point_3d p0 p1 q1
  ∨ (orient3d p0 p1 q0 q1 = 0
     ∧ Pt.dot (Pt.cross (p1 - p0) (q0 - p0)) (Pt.cross (p1 - p0) (q1 - p0)) < 0
     ∧ Pt.dot (Pt.cross (q1 - q0) (p0 - q0)) (Pt.cross (q1 - q0) (p1 - q0)) < 0)

instance (p0 p1 q0 q1 : Pt) : Decidable (collides_segment_segment_3d p0 p1 q0 q1) := by
  unfold collides_segment_segment_3d; infer_instance

/-- Modelled from the spec: the `add_if_equal` duplicate-tracking helper of
`IntersectionConstruction` (declared in the header, outside the source):
"detect and record endpoint-to-endpoint coincidences without double-counting,
using boolean already-matched flags per endpoint".  Returns the updated point
list together with the updated flags for the two endpoints compared. -/
def add_if_equal {α : Type} [DecidableEq α] (points : List α) (x y : α) (xi yi : Bool) :
    List α × Bool × Bool :=
  if xi = false ∧ yi = false ∧ x = y then (points ++ [x], true, true) else (points, xi, yi)

/-- The four sequential `add_if_equal` calls shared by the segment/segment
intersectors ("Special case: end point collision"), transliterated with the
mutable point list and the four indicator flags threaded explicitly.  Each
call returns the updated point list and the updated flags of the two
endpoints compared; the result bundles the final point list with the final
flags `(points, p0i, p1i, q0i, q1i)`. -/
def add_if_equal_chain {α : Type} [DecidableEq α] (p0 p1 q0 q1 : α) :
    List α × Bool × Bool × Bool × Bool :=
  match add_if_equal ([] : List α) p0 q0 false false with
  | (pts1, p0i1, q0i1) =>
  match add_if_equal pts1 p0 q1 p0i1 false with
  | (pts2, p0i, q1i1) =>
  match add_if_equal pts2 p1 q0 false q0i1 with
  | (pts3, p1i1, q0i) =>
  match add_if_equal pts3 p1 q1 p1i1 q1i1 with
  | (pts4, p1i, q1i) =>
  (pts4, p0i, p1i, q0i, q1i)

namespace IntersectionConstruction

/-- `IntersectionConstruction::_unique_points`: keep `input_points[i]` exactly
when no later entry equals it. -/
def _unique_points : List Pt → List Pt
  | [] => []
  | a :: rest => if a ∈ rest then _unique_points rest else a :: _unique_points rest

/-- `IntersectionConstruction::intersection_point_point_1d`. -/
def intersection_point_point_1d (p0 q0 : ℚ) : List ℚ :=
  if p0 = q0 then [p0] else []

/-- `IntersectionConstruction::intersection_point_point_2d`. -/
def intersection_point_point_2d (p0 q0 : Pt) : List Pt :=
  if p0.x = q0.x ∧ p0.y = q0.y then [p0] else []

/-- `IntersectionConstruction::intersection_point_point_3d`. -/
def intersection_point_point_3d (p0 q0 : Pt) : List Pt :=
  if p0.x = q0.x ∧ p0.y = q0.y ∧ p0.z = q0.z then [p0] else []

/-- `IntersectionConstruction::intersection_segment_point_1d`. -/
def intersection_segment_point_1d (p0 p1 q0 : ℚ) : List ℚ :=
  if collides_segment_point_1d p0 p1 q0 then [q0] else []

/-- `IntersectionConstruction::intersection_segment_point_2d`. -/
def intersection_segment_point_2d (p0 p1 q0 : Pt) : List Pt :=
  if collides_segment_point_2d p0 p1 q0 then [q0] else []

/-- `IntersectionConstruction::intersection_segment_point_3d`. -/
def intersection_segment_point_3d (p0 p1 q0 : Pt) : List Pt :=
  if collides_segment_point_3d p0 p1 q0 then [q0] else []

/-- `IntersectionConstruction::intersection_triangle_point_2d`. -/
def intersection_triangle_point_2d (p0 p1 p2 q0 : Pt) : List Pt :=
  if collides_triangle_point_2d p0 p1 p2 q0 then [q0] else []

/-- `IntersectionConstruction::intersection_triangle_point_3d`. -/
def intersection_triangle_point_3d (p0 p1 p2 q0 : Pt) : List Pt :=
  if collides_triangle_point_3d p0 p1 p2 q0 then [q0] else []

/-- `IntersectionConstruction::intersection_tetrahedron_point_3d`. -/
def intersection_tetrahedron_point_3d (p0 p1 p2 p3 q0 : Pt) : List Pt :=
  if collides_tetrahedron_point_3d p0 p1 p2 p3 q0 then [q0] else []

/-- `IntersectionConstruction::intersection_segment_segment_1d`.  The mutable
point list and the four duplicate-indicator flags of the C++ are threaded
explicitly through the four `add_if_equal` calls (`add_if_equal_chain`), and
each conditional `push_back` is embedded as appending a conditional
singleton, which produces the same list. -/
def intersection_segment_segment_1d (p0 p1 q0 q1 : ℚ) : List ℚ :=
  let p0o := orient1d q0 q1 p0
  let p1o := orient1d q0 q1 p1
  let q0o := orient1d p0 p1 q0
  let q1o := orient1d p0 p1 q1
  let po := p0o * p1o
  let qo := q0o * q1o
  if po > 0 ∨ qo > 0 then []
  else
    (add_if_equal_chain p0 p1 q0 q1).1
      ++ (if (add_if_equal_chain p0 p1 q0 q1).2.1 = false ∧ p0o = 0 then [p0] else [])
      ++ (if (add_if_equal_chain p0 p1 q0 q1).2.2.1 = false ∧ p1o = 0 then [p1] else [])
      ++ (if (add_if_equal_chain p0 p1 q0 q1).2.2.2.1 = false ∧ q0o = 0 then [q0] else [])
      ++ (if (add_if_equal_chain p0 p1 q0 q1).2.2.2.2 = false ∧ q1o = 0 then [q1] else [])

/-- Insertion into a list sorted by the chosen coordinate axis, used to embed
the `std::sort` call of the near-collinear fallback with the strict `<`
comparator of the source (ties keep the earlier element first; the C++
leaves the relative order of tied elements unspecified). -/
def insert_by_axis (m : ℕ) (p : Pt) : List Pt → List Pt
  | [] => [p]
  | a :: rest => if p.coord m < a.coord m then p :: a :: rest else a :: insert_by_axis m p rest

/-- Sorting of the four endpoints along a coordinate axis (see
`insert_by_axis`). -/
def sort_by_axis (m : ℕ) : List Pt → List Pt
  | [] => []
  | a :: rest => insert_by_axis m a (sort_by_axis m rest)

/-- The `num` of the main case of `intersection_segment_segment_2d`: the
orientation of the base segment's first endpoint with respect to the other
segment, the base being chosen by the strict shorter-segment test of the
source. -/
def ss2d_num (p0 p1 q0 q1 : Pt) : ℚ :=
  if Pt.squared_distance p0 p1 < Pt.squared_distance q0 q1 then
    orient2d q0 q1 p0
  else
    orient2d p0 p1 q0

/-- The `den` of the main case of `intersection_segment_segment_2d`, for the
same choice of parametrization base as `ss2d_num`. -/
def ss2d_den (p0 p1 q0 q1 : Pt) : ℚ :=
  if Pt.squared_distance p0 p1 < Pt.squared_distance q0 q1 then
    (p1.x - p0.x) * (q1.y - q0.y) - (p1.y - p0.y) * (q1.x - q0.x)
  else
    (q1.x - q0.x) * (p1.y - p0.y) - (q1.y - q0.y) * (p1.x - p0.x)

/-- The intersection point `x = base + num / den * (dir)` of the main case of
`intersection_segment_segment_2d`, for the same choice of parametrization
base as `ss2d_num`. -/
def ss2d_x (p0 p1 q0 q1 : Pt) : Pt :=
  if Pt.squared_distance p0 p1 < Pt.squared_distance q0 q1 then
    p0 + (ss2d_num p0 p1 q0 q1 / ss2d_den p0 p1 q0 q1) • (p1 - p0)
  else
    q0 + (ss2d_num p0 p1 q0 q1 / ss2d_den p0 p1 q0 q1) • (q1 - q0)

/-- `IntersectionConstruction::intersection_segment_segment_2d`.  As in
`intersection_segment_segment_1d`, the point list and the duplicate-indicator
flags are threaded explicitly through the `add_if_equal` chain. -/
def intersection_segment_segment_2d (p0 p1 q0 q1 : Pt) : List Pt :=
  let p0o := orient2d q0 q1 p0
  let p1o := orient2d q0 q1 p1
  let q0o := orient2d p0 p1 q0
  let q1o := orient2d p0 p1 q1
  let po := p0o * p1o
  let qo := q0o * q1o
  if po > 0 ∨ qo > 0 then []
  else if po = 0 ∨ qo = 0 then
    (add_if_equal_chain p0 p1 q0 q1).1
      ++ (if po = 0 then
            (if (add_if_equal_chain p0 p1 q0 q1).2.1 = false ∧ p0o = 0
                ∧ collides_segment_point_1d
                    (project_to_axis_2d q0 (major_axis_2d (q1 - q0)))
                    (project_to_axis_2d q1 (major_axis_2d (q1 - q0)))
                    (project_to_axis_2d p0 (major_axis_2d (q1 - q0))) then [p0] else [])
            ++ (if (add_if_equal_chain p0 p1 q0 q1).2.2.1 = false ∧ p1o = 0
                ∧ collides_segment_point_1d
                    (project_to_axis_2d q0 (major_axis_2d (q1 - q0)))
                    (project_to_axis_2d q1 (major_axis_2d (q1 - q0)))
                    (project_to_axis_2d p1 (major_axis_2d (q1 - q0))) then [p1] else [])
          else [])
      ++ (if qo = 0 then
            (if (add_if_equal_chain p0 p1 q0 q1).2.2.2.1 = false ∧ q0o = 0
                ∧ collides_segment_point_1d
                    (project_to_axis_2d p0 (major_axis_2d (p1 - p0)))
                    (project_to_axis_2d p1 (major_axis_2d (p1 - p0)))
                    (project_to_axis_2d q0 (major_axis_2d (p1 - p0))) then [q0] else [])
            ++ (if (add_if_equal_chain p0 p1 q0 q1).2.2.2.2 = false ∧ q1o = 0
                ∧ collides_segment_point_1d
                    (project_to_axis_2d p0 (major_axis_2d (p1 - p0)))
                    (project_to_axis_2d p1 (major_axis_2d (p1 - p0)))
                    (project_to_axis_2d q1 (major_axis_2d (p1 - p0))) then [q1] else [])
          else [])
  else
    if rabs (ss2d_den p0 p1 q0 q1 * ss2d_den p0 p1 q0 q1)
        < DOLFIN_EPS_LARGE * rabs (ss2d_num p0 p1 q0 q1) then
      let ma := major_axis_2d (p1 - p0)
      let sorted := sort_by_axis ma [p0, p1, q0, q1]
      [((1 : ℚ) / 2) • (sorted.getD 1 zeroPt + sorted.getD 2 zeroPt)]
    else
      _unique_points [ss2d_x p0 p1 q0 q1]

/-- `IntersectionConstruction::intersection_segment_segment_3d`. -/
def intersection_segment_segment_3d (p0 p1 q0 q1 : Pt) : List Pt :=
  if ¬ collides_segment_segment_3d p0 p1 q0 q1 then []
  else if p0 = p1 ∧ collides_segment_point_3d q0 q1 p0 then [p0]
  else if q0 = q1 ∧ collides_segment_point_3d p0 p1 q0 then [q0]
  else
    let pts := (if collides_segment_point_3d q0 q1 p0 then [p0] else [])
            ++ (if collides_segment_point_3d q0 q1 p1 then [p1] else [])
            ++ (if collides_segment_point_3d p0 p1 q0 then [q0] else [])
            ++ (if collides_segment_point_3d p0 p1 q1 then [q1] else [])
    if pts.length = 1 then pts
    else if pts.length > 1 then _unique_points pts
    else
      let w := p0 - p1
      let v := q0 - q1
      let u := p1 - q1
      let wv := Pt.cross w v
      let vu := Pt.cross v u
      let den := Pt.squared_norm wv
      let num := Pt.dot wv vu
      if den = 0 ∧ num = 0 then []
      else if den = 0 ∧ num ≠ 0 then []
      else
        let x0 :=
          if rabs (num / den - 1) < DOLFIN_EPS_LARGE then
            let uSwapped := p0 - q1
            let vuSwapped := Pt.cross v uSwapped
            let numSwapped := -(Pt.dot wv vuSwapped)
            p0 + (numSwapped / den) • (p1 - p0)
          else
            p1 + (num / den) • (p0 - p1)
        _unique_points [x0]

/-- `IntersectionConstruction::intersection_triangle_segment_2d`.  The `_add`
helper of the source appends a sub-result to the accumulating point list, so
the accumulated list is the concatenation below. -/
def intersection_triangle_segment_2d (p0 p1 p2 q0 q1 : Pt) : List Pt :=
  _unique_points
    (intersection_triangle_point_2d p0 p1 p2 q0
      ++ intersection_triangle_point_2d p0 p1 p2 q1
      ++ intersection_segment_segment_2d p0 p1 q0 q1
      ++ intersection_segment_segment_2d p0 p2 q0 q1
      ++ intersection_segment_segment_2d p1 p2 q0 q1)

/-- `IntersectionConstruction::intersection_triangle_segment_3d`.  The source
computes the segment-endpoint orientations and returns the still-empty point
list when their product is strictly positive; the remainder of the function —
the coplanar and plane-crossing cases — is commented out, so the fall-through
path also returns the empty list (the plane normal and major-axis projections
are computed but unused). -/
def intersection_triangle_segment_3d (p0 p1 p2 q0 q1 : Pt) : List Pt :=
  let q0o := orient3d p0 p1 p2 q0
  let q1o := orient3d p0 p1 p2 q1
  let qo := q0o * q1o
  if qo > 0 then [] else []

/-- `IntersectionConstruction::intersection_tetrahedron_segment_3d`.  Note:
unlike the other composite intersectors, the source returns the accumulated
list directly, without `_unique_points`. -/
def intersection_tetrahedron_segment_3d (p0 p1 p2 p3 q0 q1 : Pt) : List Pt :=
  intersection_tetrahedron_point_3d p0 p1 p2 p3 q0
    ++ intersection_tetrahedron_point_3d p0 p1 p2 p3 q1
    ++ intersection_triangle_segment_3d p0 p1 p2 q0 q1
    ++ intersection_triangle_segment_3d p0 p1 p3 q0 q1
    ++ intersection_triangle_segment_3d p0 p2 p3 q0 q1
    ++ intersection_triangle_segment_3d p1 p2 p3 q0 q1

/-- `IntersectionConstruction::intersection_triangle_triangle_2d`. -/
def intersection_triangle_triangle_2d (p0 p1 p2 q0 q1 q2 : Pt) : List Pt :=
  _unique_points
    (intersection_triangle_point_2d p0 p1 p2 q0
      ++ intersection_triangle_point_2d p0 p1 p2 q1
      ++ intersection_triangle_point_2d p0 p1 p2 q2
      ++ intersection_triangle_point_2d q0 q1 q2 p0
      ++ intersection_triangle_point_2d q0 q1 q2 p1
      ++ intersection_triangle_point_2d q0 q1 q2 p2
      ++ intersection_segment_segment_2d p0 p1 q0 q1
      ++ intersection_segment_segment_2d p0 p1 q0 q2
      ++ intersection_segment_segment_2d p0 p1 q1 q2
      ++ intersection_segment_segment_2d p0 p2 q0 q1
      ++ intersection_segment_segment_2d p0 p2 q0 q2
      ++ intersection_segment_segment_2d p0 p2 q1 q2
      ++ intersection_segment_segment_2d p1 p2 q0 q1
      ++ intersection_segment_segment_2d p1 p2 q0 q2
      ++ intersection_segment_segment_2d p1 p2 q1 q2)

/-- `IntersectionConstruction::intersection_triangle_triangle_3d`. -/
def intersection_triangle_triangle_3d (p0 p1 p2 q0 q1 q2 : Pt) : List Pt :=
  _unique_points
    (intersection_triangle_point_3d p0 p1 p2 q0
      ++ intersection_triangle_point_3d p0 p1 p2 q1
      ++ intersection_triangle_point_3d p0 p1 p2 q2
      ++ intersection_triangle_point_3d q0 q1 q2 p0
      ++ intersection_triangle_point_3d q0 q1 q2 p1
      ++ intersection_triangle_point_3d q0 q1 q2 p2
      ++ intersection_triangle_segment_3d p0 p1 p2 q0 q1
      ++ intersection_triangle_segment_3d p0 p1 p2 q0 q2
      ++ intersection_triangle_segment_3d p0 p1 p2 q1 q2
      ++ intersection_triangle_segment_3d q0 q1 q2 p0 p1
      ++ intersection_triangle_segment_3d q0 q1 q2 p0 p2
      ++ intersection_triangle_segment_3d q0 q1 q2 p1 p2)

/-- `IntersectionConstruction::intersection_tetrahedron_triangle_3d`. -/
def intersection_tetrahedron_triangle_3d (p0 p1 p2 p3 q0 q1 q2 : Pt) : List Pt :=
  _unique_points
    (intersection_tetrahedron_point_3d p0 p1 p2 p3 q0
      ++ intersection_tetrahedron_point_3d p0 p1 p2 p3 q1
      ++ intersection_tetrahedron_point_3d p0 p1 p2 p3 q2
      ++ intersection_triangle_point_3d q0 q1 q2 p0
      ++ intersection_triangle_point_3d q0 q1 q2 p1
      ++ intersection_triangle_point_3d q0 q1 q2 p2
      ++ intersection_triangle_point_3d q0 q1 q2 p3
      ++ intersection_triangle_segment_3d p0 p1 p2 q0 q1
      ++ intersection_triangle_segment_3d p0 p1 p2 q0 q2
      ++ intersection_triangle_segment_3d p0 p1 p2 q1 q2
      ++ intersection_triangle_segment_3d p0 p1 p3 q0 q1
      ++ intersection_triangle_segment_3d p0 p1 p3 q0 q2
      ++ intersection_triangle_segment_3d p0 p1 p3 q1 q2
      ++ intersection_triangle_segment_3d p0 p2 p3 q0 q1
      ++ intersection_triangle_segment_3d p0 p2 p3 q0 q2
      ++ intersection_triangle_segment_3d p0 p2 p3 q1 q2
      ++ intersection_triangle_segment_3d p1 p2 p3 q0 q1
      ++ intersection_triangle_segment_3d p1 p2 p3 q0 q2
      ++ intersection_triangle_segment_3d p1 p2 p3 q1 q2
      ++ intersection_triangle_segment_3d q0 q1 q2 p0 p1
      ++ intersection_triangle_segment_3d q0 q1 q2 p0 p2
      ++ intersection_triangle_segment_3d q0 q1 q2 p0 p3
      ++ intersection_triangle_segment_3d q0 q1 q2 p1 p2
      ++ intersection_triangle_segment_3d q0 q1 q2 p1 p3
      ++ intersection_triangle_segment_3d q0 q1 q2 p2 p3)

/-- `IntersectionConstruction::intersection_tetrahedron_tetrahedron_3d`. -/
def intersection_tetrahedron_tetrahedron_3d (p0 p1 p2 p3 q0 q1 q2 q3 : Pt) : List Pt :=
  _unique_points
    (intersection_tetrahedron_point_3d p0 p1 p2 p3 q0
      ++ intersection_tetrahedron_point_3d p0 p1 p2 p3 q1
      ++ intersection_tetrahedron_point_3d p0 p1 p2 p3 q2
      ++ intersection_tetrahedron_point_3d p0 p1 p2 p3 q3
      ++ intersection_tetrahedron_point_3d q0 q1 q2 q3 p0
      ++ intersection_tetrahedron_point_3d q0 q1 q2 q3 p1
      ++ intersection_tetrahedron_point_3d q0 q1 q2 q3 p2
      ++ intersection_tetrahedron_point_3d q0 q1 q2 q3 p3
      ++ intersection_triangle_segment_3d p0 p1 p2 q0 q1
      ++ intersection_triangle_segment_3d p0 p1 p2 q0 q2
      ++ intersection_triangle_segment_3d p0 p1 p2 q0 q3
      ++ intersection_triangle_segment_3d p0 p1 p2 q1 q2
      ++ intersection_triangle_segment_3d p0 p1 p2 q1 q3
      ++ intersection_triangle_segment_3d p0 p1 p2 q2 q3
      ++ intersection_triangle_segment_3d p0 p1 p3 q0 q1
      ++ intersection_triangle_segment_3d p0 p1 p3 q0 q2
      ++ intersection_triangle_segment_3d p0 p1 p3 q0 q3
      ++ intersection_triangle_segment_3d p0 p1 p3 q1 q2
      ++ intersection_triangle_segment_3d p0 p1 p3 q1 q3
      ++ intersection_triangle_segment_3d p0 p1 p3 q2 q3
      ++ intersection_triangle_segment_3d p0 p2 p3 q0 q1
      ++ intersection_triangle_segment_3d p0 p2 p3 q0 q2
      ++ intersection_triangle_segment_3d p0 p2 p3 q0 q3
      ++ intersection_triangle_segment_3d p0 p2 p3 q1 q2
      ++ intersection_triangle_segment_3d p0 p2 p3 q1 q3
      ++ intersection_triangle_segment_3d p0 p2 p3 q2 q3
      ++ intersection_triangle_segment_3d p1 p2 p3 q0 q1
      ++ intersection_triangle_segment_3d p1 p2 p3 q0 q2
      ++ intersection_triangle_segment_3d p1 p2 p3 q0 q3
      ++ intersection_triangle_segment_3d p1 p2 p3 q1 q2
      ++ intersection_triangle_segment_3d p1 p2 p3 q1 q3
      ++ intersection_triangle_segment_3d p1 p2 p3 q2 q3
      ++ intersection_triangle_segment_3d q0 q1 q2 p0 p1
      ++ intersection_triangle_segment_3d q0 q1 q2 p0 p2
      ++ intersection_triangle_segment_3d q0 q1 q2 p0 p3
      ++ intersection_triangle_segment_3d q0 q1 q2 p1 p2
      ++ intersection_triangle_segment_3d q0 q1 q2 p1 p3
      ++ intersection_triangle_segment_3d q0 q1 q2 p2 p3
      ++ intersection_triangle_segment_3d q0 q1 q3 p0 p1
      ++ intersection_triangle_segment_3d q0 q1 q3 p0 p2
      ++ intersection_triangle_segment_3d q0 q1 q3 p0 p3
      ++ intersection_triangle_segment_3d q0 q1 q3 p1 p2
      ++ intersection_triangle_segment_3d q0 q1 q3 p1 p3
      ++ intersection_triangle_segment_3d q0 q1 q3 p2 p3
      ++ intersection_triangle_segment_3d q0 q2 q3 p0 p1
      ++ intersection_triangle_segment_3d q0 q2 q3 p0 p2
      ++ intersection_triangle_segment_3d q0 q2 q3 p0 p3
      ++ intersection_triangle_segment_3d q0 q2 q3 p1 p2
      ++ intersection_triangle_segment_3d q0 q2 q3 p1 p3
      ++ intersection_triangle_segment_3d q0 q2 q3 p2 p3
      ++ intersection_triangle_segment_3d q1 q2 q3 p0 p1
      ++ intersection_triangle_segment_3d q1 q2 q3 p0 p2
      ++ intersection_triangle_segment_3d q1 q2 q3 p0 p3
      ++ intersection_triangle_segment_3d q1 q2 q3 p1 p2
      ++ intersection_triangle_segment_3d q1 q2 q3 p1 p3
      ++ intersection_triangle_segment_3d q1 q2 q3 p2 p3)

/-- The data carried by the fatal error raised by the dispatch layer for an
unsupported dimension combination: the offending topological dimensions of
the two inputs and the ambient geometric dimension (the numeric arguments of
the `dolfin_error` format message). -/
structure DispatchError where
  d0 : ℕ
  d1 : ℕ
  gdim : ℕ
deriving DecidableEq, Repr

/-- Modelled from the spec: `dolfin_error` "must abort with a descriptive
error"; aborting is embedded as returning `Except.error` carrying the
descriptive data.  (The `return {}` after the `dolfin_error` call in the
source is unreachable.) -/
def dolfin_error (d0 d1 gdim : ℕ) : Except DispatchError (List Pt) :=
  .error ⟨d0, d1, gdim⟩

/-- `IntersectionConstruction::intersection(p, q, gdim)`, the dispatch layer.
The `switch` statements of the source fall through to the final
`dolfin_error` call for unlisted geometric dimensions, which is embedded as
the `dolfin_error` value in each unmatched branch. -/
def intersection (p q : List Pt) (gdim : ℕ) : Except DispatchError (List Pt) :=
  let d0 := p.length - 1
  let d1 := q.length - 1
  if d0 = 1 ∧ d1 = 1 then
    if gdim = 1 then
      .ok ((intersection_segment_segment_1d ((p.getD 0 zeroPt).coord 0)
        ((p.getD 1 zeroPt).coord 0) ((q.getD 0 zeroPt).coord 0)
        ((q.getD 1 zeroPt).coord 0)).map (fun t => ⟨t, 0, 0⟩))
    else if gdim = 2 then
      .ok (intersection_segment_segment_2d (p.getD 0 zeroPt) (p.getD 1 zeroPt)
        (q.getD 0 zeroPt) (q.getD 1 zeroPt))
    else if gdim = 3 then
      .ok (intersection_segment_segment_3d (p.getD 0 zeroPt) (p.getD 1 zeroPt)
        (q.getD 0 zeroPt) (q.getD 1 zeroPt))
    else dolfin_error d0 d1 gdim
  else if d0 = 1 ∧ d1 = 2 then
    if gdim = 2 then
      .ok (intersection_triangle_segment_2d (q.getD 0 zeroPt) (q.getD 1 zeroPt)
        (q.getD 2 zeroPt) (p.getD 0 zeroPt) (p.getD 1 zeroPt))
    else if gdim = 3 then
      .ok (intersection_triangle_segment_3d (q.getD 0 zeroPt) (q.getD 1 zeroPt)
        (q.getD 2 zeroPt) (p.getD 0 zeroPt) (p.getD 1 zeroPt))
    else dolfin_error d0 d1 gdim
  else if d0 = 2 ∧ d1 = 1 then
    if gdim = 2 then
      .ok (intersection_triangle_segment_2d (p.getD 0 zeroPt) (p.getD 1 zeroPt)
        (p.getD 2 zeroPt) (q.getD 0 zeroPt) (q.getD 1 zeroPt))
    else if gdim = 3 then
      .ok (intersection_triangle_segment_3d (p.getD 0 zeroPt) (p.getD 1 zeroPt)
        (p.getD 2 zeroPt) (q.getD 0 zeroPt) (q.getD 1 zeroPt))
    else dolfin_error d0 d1 gdim
  else if d0 = 2 ∧ d1 = 2 then
    if gdim = 2 then
      .ok (intersection_triangle_triangle_2d (p.getD 0 zeroPt) (p.getD 1 zeroPt)
        (p.getD 2 zeroPt) (q.getD 0 zeroPt) (q.getD 1 zeroPt) (q.getD 2 zeroPt))
    else if gdim = 3 then
      .ok (intersection_triangle_triangle_3d (p.getD 0 zeroPt) (p.getD 1 zeroPt)
        (p.getD 2 zeroPt) (q.getD 0 zeroPt) (q.getD 1 zeroPt) (q.getD 2 zeroPt))
    else dolfin_error d0 d1 gdim
  else if d0 = 2 ∧ d1 = 3 then
    if gdim = 3 then
      .ok (intersection_tetrahedron_triangle_3d (q.getD 0 zeroPt) (q.getD 1 zeroPt)
        (q.getD 2 zeroPt) (q.getD 3 zeroPt) (p.getD 0 zeroPt) (p.getD 1 zeroPt)
        (p.getD 2 zeroPt))
    else dolfin_error d0 d1 gdim
  else if d0 = 3 ∧ d1 = 2 then
    if gdim = 3 then
      .ok (intersection_tetrahedron_triangle_3d (p.getD 0 zeroPt) (p.getD 1 zeroPt)
        (p.getD 2 zeroPt) (p.getD 3 zeroPt) (q.getD 0 zeroPt) (q.getD 1 zeroPt)
        (q.getD 2 zeroPt))
    else dolfin_error d0 d1 gdim
  else if d0 = 3 ∧ d1 = 3 then
    if gdim = 3 then
      .ok (intersection_tetrahedron_tetrahedron_3d (p.getD 0 zeroPt) (p.getD 1 zeroPt)
        (p.getD 2 zeroPt) (p.getD 3 zeroPt) (q.getD 0 zeroPt) (q.getD 1 zeroPt)
        (q.getD 2 zeroPt) (q.getD 3 zeroPt))
    else dolfin_error d0 d1 gdim
  else dolfin_error d0 d1 gdim

/-- Modelled from the spec: the mesh-geometry accessor of a mesh entity (an
"external collaborator: mesh geometry accessor providing vertex coordinates
by index"), bundling the geometric dimension of the mesh and its vertex
coordinates. -/
structure MeshGeometry where
  dim : ℕ
  point : ℕ → Pt

/-- Modelled from the spec: a mesh entity, carrying its mesh's geometry, its
topological dimension and its vertex indices (`entity.entities(0)`). -/
structure MeshEntity where
  geometry : MeshGeometry
  dim : ℕ
  entities0 : ℕ → ℕ

/-- `IntersectionConstruction::intersection(entity_0, entity_1)`, the
mesh-entity convenience overload: pack the two vertex lists, take the
geometric dimension from the first entity only, and delegate. -/
def intersection_entities (e0 e1 : MeshEntity) : Except DispatchError (List Pt) :=
  let points0 := (List.range (e0.dim + 1)).map (fun i => e0.geometry.point (e0.entities0 i))
  let points1 := (List.range (e1.dim + 1)).map (fun i => e1.geometry.point (e1.entities0 i))
  let gdim := e0.geometry.dim
  intersection points0 points1 gdim

/-- The combinations of topological dimensions and geometric dimension for
which the dispatch layer has a specialized intersector (spec §4.1). -/
def supported_combination (d0 d1 gdim : ℕ) : Prop :=
  (d0 = 1 ∧ d1 = 1 ∧ (gdim = 1 ∨ gdim = 2 ∨ gdim = 3))
  ∨ (d0 = 1 ∧ d1 = 2 ∧ (gdim = 2 ∨ gdim = 3))
  ∨ (d0 = 2 ∧ d1 = 1 ∧ (gdim = 2 ∨ gdim = 3))
  ∨ (d0 = 2 ∧ d1 = 2 ∧ (gdim = 2 ∨ gdim = 3))
  ∨ (d0 = 2 ∧ d1 = 3 ∧ gdim = 3)
  ∨ (d0 = 3 ∧ d1 = 2 ∧ gdim = 3)
  ∨ (d0 = 3 ∧ d1 = 3 ∧ gdim = 3)

instance (d0 d1 gdim : ℕ) : Decidable (supported_combination d0 d1 gdim) := by
  unfold supported_combination; infer_instance

end IntersectionConstruction

/-!  Helper lemmas. -/

lemma mem_ite_nil {α : Type} {x a : α} {c : Prop} [Decidable c] :
    x ∈ (if c then [a] else ([] : List α)) ↔ c ∧ x = a := by
  split <;> simp_all

lemma Pt.add_def (a b : Pt) : a + b = ⟨a.x + b.x, a.y + b.y, a.z + b.z⟩ := rfl

lemma Pt.sub_def (a b : Pt) : a - b = ⟨a.x - b.x, a.y - b.y, a.z - b.z⟩ := rfl

lemma Pt.smul_def (c : ℚ) (a : Pt) : c • a = ⟨c * a.x, c * a.y, c * a.z⟩ := rfl

/-- Closed form of the `add_if_equal` chain, by case analysis on the four
endpoint coincidences. -/
lemma add_if_equal_chain_eq {α : Type} [DecidableEq α] (p0 p1 q0 q1 : α) :
    add_if_equal_chain p0 p1 q0 q1 =
      if p0 = q0 then
        if p1 = q1 then ([p0, p1], true, true, true, true)
        else ([p0], true, false, true, false)
      else if p0 = q1 then
        if p1 = q0 then ([p0, p1], true, true, true, true)
        else ([p0], true, false, false, true)
      else if p1 = q0 then ([p1], false, true, true, false)
      else if p1 = q1 then ([p1], false, true, false, true)
      else ([], false, false, false, false) := by
  by_cases e1 : p0 = q0 <;> by_cases e2 : p0 = q1 <;> by_cases e3 : p1 = q0 <;> by_cases e4 : p1 = q1 <;>
    [skip; skip; skip; skip; skip; skip; skip; skip; skip; skip; skip; skip; skip; skip; skip; skip] <;>
  · try subst e1
    try subst e2
    try subst e3
    try subst e4
    simp_all [add_if_equal_chain, add_if_equal]

/-- Closed form of the `add_if_equal` chain with the two segments swapped,
with the same condition atoms as `add_if_equal_chain_eq`. -/
lemma add_if_equal_chain_eq_swap {α : Type} [DecidableEq α] (p0 p1 q0 q1 : α) :
    add_if_equal_chain q0 q1 p0 p1 =
      if p0 = q0 then
        if p1 = q1 then ([q0, q1], true, true, true, true)
        else ([q0], true, false, true, false)
      else if p1 = q0 then
        if p0 = q1 then ([q0, q1], true, true, true, true)
        else ([q0], true, false, false, true)
      else if p0 = q1 then ([q1], false, true, true, false)
      else if p1 = q1 then ([q1], false, true, false, true)
      else ([], false, false, false, false) := by
  by_cases e1 : p0 = q0 <;> by_cases e2 : p0 = q1 <;> by_cases e3 : p1 = q0 <;> by_cases e4 : p1 = q1 <;>
    [skip; skip; skip; skip; skip; skip; skip; skip; skip; skip; skip; skip; skip; skip; skip; skip] <;>
  · try subst e1
    try subst e2
    try subst e3
    try subst e4
    try have e1s := fun h => e1 (Eq.symm h)
    try have e2s := fun h => e2 (Eq.symm h)
    try have e3s := fun h => e3 (Eq.symm h)
    try have e4s := fun h => e4 (Eq.symm h)
    simp_all [add_if_equal_chain, add_if_equal]

namespace IntersectionConstruction

/-- Membership in `_unique_points` is membership in the input list. -/
lemma mem_unique_points {x : Pt} : ∀ {l : List Pt}, x ∈ _unique_points l ↔ x ∈ l := by
  intro l
  induction l with
  | nil => simp [_unique_points]
  | cons a rest ih =>
    unfold _unique_points
    by_cases h : a ∈ rest
    · rw [if_pos h, ih]
      simp only [List.mem_cons]
      constructor
      · exact Or.inr
      · rintro (rfl | hx)
        · exact h
        · exact hx
    · rw [if_neg h]
      simp [List.mem_cons, ih]

/-- The 3D triangle–segment intersector returns the empty list on every
input. -/
lemma triangle_segment_3d_nil (p0 p1 p2 q0 q1 : Pt) :
    intersection_triangle_segment_3d p0 p1 p2 q0 q1 = [] := by
  simp [intersection_triangle_segment_3d]

/-- Set-symmetry of the 1D segment–segment intersector. -/
lemma ss1d_symm (p0 p1 q0 q1 x : ℚ) :
    x ∈ intersection_segment_segment_1d p0 p1 q0 q1
      ↔ x ∈ intersection_segment_segment_1d q0 q1 p0 p1 := by
  by_cases hg : orient1d q0 q1 p0 * orient1d q0 q1 p1 > 0 ∨ orient1d p0 p1 q0 * orient1d p0 p1 q1 > 0
  · have hg2 : orient1d p0 p1 q0 * orient1d p0 p1 q1 > 0
        ∨ orient1d q0 q1 p0 * orient1d q0 q1 p1 > 0 := hg.symm
    simp only [intersection_segment_segment_1d]
    rw [if_pos hg, if_pos hg2]
  · have hg2 : ¬ (orient1d p0 p1 q0 * orient1d p0 p1 q1 > 0
        ∨ orient1d q0 q1 p0 * orient1d q0 q1 p1 > 0) := fun h => hg h.symm
    simp only [intersection_segment_segment_1d]
    rw [if_neg hg, if_neg hg2, add_if_equal_chain_eq p0 p1 q0 q1,
      add_if_equal_chain_eq_swap p0 p1 q0 q1]
    clear hg hg2
    by_cases e1 : p0 = q0 <;> by_cases e2 : p0 = q1 <;> by_cases e3 : p1 = q0 <;> by_cases e4 : p1 = q1 <;>
      [skip; skip; skip; skip; skip; skip; skip; skip; skip; skip; skip; skip; skip; skip; skip; skip] <;>
    · try subst e1
      try subst e2
      try subst e3
      try subst e4
      try have e1s := fun h => e1 (Eq.symm h)
      try have e2s := fun h => e2 (Eq.symm h)
      try have e3s := fun h => e3 (Eq.symm h)
      try have e4s := fun h => e4 (Eq.symm h)
      simp_all [mem_ite_nil, List.mem_append]
      try tauto

/-- The four-point orientation determinant is invariant under swapping the
two point pairs. -/
lemma orient3d_swap_pairs (p0 p1 q0 q1 : Pt) :
    orient3d q0 q1 p0 p1 = orient3d p0 p1 q0 q1 := by
  unfold orient3d; ring

/-- A point collides with a degenerate (single-point) 3D segment exactly when
it equals that point. -/
lemma collides_segment_point_3d_degenerate (a x : Pt) :
    collides_segment_point_3d a a x ↔ x = a := by
  unfold collides_segment_point_3d collides_segment_point_1d
  constructor
  · rintro ⟨-, hx, hy, hz⟩
    have hx' : x.x = a.x := by rcases hx with ⟨h1, h2⟩ | ⟨h1, h2⟩ <;> linarith
    have hy' : x.y = a.y := by rcases hy with ⟨h1, h2⟩ | ⟨h1, h2⟩ <;> linarith
    have hz' : x.z = a.z := by rcases hz with ⟨h1, h2⟩ | ⟨h1, h2⟩ <;> linarith
    cases x; cases a; simp_all
  · rintro rfl
    refine ⟨?_, Or.inl ⟨le_refl _, le_refl _⟩, Or.inl ⟨le_refl _, le_refl _⟩,
      Or.inl ⟨le_refl _, le_refl _⟩⟩
    simp only [Pt.sub_def, Pt.cross, zeroPt, Pt.mk.injEq]
    refine ⟨by ring, by ring, by ring⟩

/-- The 3D segment–segment collision predicate is symmetric in its two
segments. -/
lemma collides_segment_segment_3d_symm (p0 p1 q0 q1 : Pt) :
    collides_segment_segment_3d q0 q1 p0 p1 ↔ collides_segment_segment_3d p0 p1 q0 q1 := by
  unfold collides_segment_segment_3d
  rw [orient3d_swap_pairs]
  tauto

/-- The squared norm of the segment cross product is invariant under swapping
the two segments. -/
lemma ss3d_den_symm (p0 p1 q0 q1 : Pt) :
    Pt.squared_norm (Pt.cross (q0 - q1) (p0 - p1))
      = Pt.squared_norm (Pt.cross (p0 - p1) (q0 - q1)) := by
  simp only [Pt.sub_def, Pt.cross, Pt.squared_norm]
  ring

/-- In the Shewchuk branch, the endpoint-swapped fraction produces exactly the
same point as the direct fraction (`num + num_swapped = den` exactly). -/
lemma ss3d_eps_point (p0 p1 q0 q1 : Pt)
    (hden : Pt.squared_norm (Pt.cross (p0 - p1) (q0 - q1)) ≠ 0) :
    p0 + (-(Pt.dot (Pt.cross (p0 - p1) (q0 - q1)) (Pt.cross (q0 - q1) (p0 - q1)))
        / Pt.squared_norm (Pt.cross (p0 - p1) (q0 - q1))) • (p1 - p0)
    = p1 + (Pt.dot (Pt.cross (p0 - p1) (q0 - q1)) (Pt.cross (q0 - q1) (p1 - q1))
        / Pt.squared_norm (Pt.cross (p0 - p1) (q0 - q1))) • (p0 - p1) := by
  obtain ⟨a1, a2, a3⟩ := p0
  obtain ⟨b1, b2, b3⟩ := p1
  obtain ⟨c1, c2, c3⟩ := q0
  obtain ⟨d1, d2, d3⟩ := q1
  simp only [Pt.sub_def, Pt.cross, Pt.dot, Pt.squared_norm, Pt.smul_def, Pt.add_def,
    Pt.mk.injEq] at hden ⊢
  refine ⟨?_, ?_, ?_⟩ <;> field_simp <;> ring

/-- In the Shewchuk branch, with the two segments coplanar and the denominator
nonzero, swapping the segments yields exactly the same intersection point. -/
lemma ss3d_main_point (p0 p1 q0 q1 : Pt)
    (hcop : orient3d p0 p1 q0 q1 = 0)
    (hden : Pt.squared_norm (Pt.cross (p0 - p1) (q0 - q1)) ≠ 0) :
    q1 + (Pt.dot (Pt.cross (q0 - q1) (p0 - p1)) (Pt.cross (p0 - p1) (q1 - p1))
        / Pt.squared_norm (Pt.cross (p0 - p1) (q0 - q1))) • (q0 - q1)
    = p1 + (Pt.dot (Pt.cross (p0 - p1) (q0 - q1)) (Pt.cross (q0 - q1) (p1 - q1))
        / Pt.squared_norm (Pt.cross (p0 - p1) (q0 - q1))) • (p0 - p1) := by
  obtain ⟨a1, a2, a3⟩ := p0
  obtain ⟨b1, b2, b3⟩ := p1
  obtain ⟨c1, c2, c3⟩ := q0
  obtain ⟨d1, d2, d3⟩ := q1
  unfold orient3d at hcop
  simp only [Pt.sub_def, Pt.cross, Pt.dot, Pt.squared_norm, Pt.smul_def, Pt.add_def,
    Pt.mk.injEq] at hden hcop ⊢
  refine ⟨?_, ?_, ?_⟩ <;> field_simp
  · linear_combination ((a2 - b2) * (c3 - d3) - (a3 - b3) * (c2 - d2)) * hcop
  · linear_combination ((a3 - b3) * (c1 - d1) - (a1 - b1) * (c3 - d3)) * hcop
  · linear_combination ((a1 - b1) * (c2 - d2) - (a2 - b2) * (c1 - d1)) * hcop

/-- The Shewchuk tail of the 3D segment–segment intersector (reached when no
endpoint lies on the other segment) is invariant, as a list, under swapping
the two coplanar segments: the denominator is swap-invariant and all four
branch formulas produce the identical exact point. -/
lemma ss3d_tail_symm (p0 p1 q0 q1 : Pt) (hcop : orient3d p0 p1 q0 q1 = 0) :
    (if Pt.squared_norm (Pt.cross (p0 - p1) (q0 - q1)) = 0 ∧
        Pt.dot (Pt.cross (p0 - p1) (q0 - q1)) (Pt.cross (q0 - q1) (p1 - q1)) = 0 then
       ([] : List Pt)
     else if Pt.squared_norm (Pt.cross (p0 - p1) (q0 - q1)) = 0 ∧
        Pt.dot (Pt.cross (p0 - p1) (q0 - q1)) (Pt.cross (q0 - q1) (p1 - q1)) ≠ 0 then
       []
     else
       _unique_points
         [if rabs (Pt.dot (Pt.cross (p0 - p1) (q0 - q1)) (Pt.cross (q0 - q1) (p1 - q1)) /
              Pt.squared_norm (Pt.cross (p0 - p1) (q0 - q1)) - 1) < DOLFIN_EPS_LARGE then
            p0 + (-(Pt.dot (Pt.cross (p0 - p1) (q0 - q1)) (Pt.cross (q0 - q1) (p0 - q1))) /
                Pt.squared_norm (Pt.cross (p0 - p1) (q0 - q1))) • (p1 - p0)
          else
            p1 + (Pt.dot (Pt.cross (p0 - p1) (q0 - q1)) (Pt.cross (q0 - q1) (p1 - q1)) /
                Pt.squared_norm (Pt.cross (p0 - p1) (q0 - q1))) • (p0 - p1)])
    = (if Pt.squared_norm (Pt.cross (q0 - q1) (p0 - p1)) = 0 ∧
        Pt.dot (Pt.cross (q0 - q1) (p0 - p1)) (Pt.cross (p0 - p1) (q1 - p1)) = 0 then
       ([] : List Pt)
     else if Pt.squared_norm (Pt.cross (q0 - q1) (p0 - p1)) = 0 ∧
        Pt.dot (Pt.cross (q0 - q1) (p0 - p1)) (Pt.cross (p0 - p1) (q1 - p1)) ≠ 0 then
       []
     else
       _unique_points
         [if rabs (Pt.dot (Pt.cross (q0 - q1) (p0 - p1)) (Pt.cross (p0 - p1) (q1 - p1)) /
              Pt.squared_norm (Pt.cross (q0 - q1) (p0 - p1)) - 1) < DOLFIN_EPS_LARGE then
            q0 + (-(Pt.dot (Pt.cross (q0 - q1) (p0 - p1)) (Pt.cross (p0 - p1) (q0 - p1))) /
                Pt.squared_norm (Pt.cross (q0 - q1) (p0 - p1))) • (q1 - q0)
          else
            q1 + (Pt.dot (Pt.cross (q0 - q1) (p0 - p1)) (Pt.cross (p0 - p1) (q1 - p1)) /
                Pt.squared_norm (Pt.cross (q0 - q1) (p0 - p1))) • (q0 - q1)]) := by
  rw [ss3d_den_symm p0 p1 q0 q1]
  by_cases hden : Pt.squared_norm (Pt.cross (p0 - p1) (q0 - q1)) = 0
  · simp only [hden, eq_self_iff_true, true_and]
    split_ifs <;> rfl
  · have hden' : Pt.squared_norm (Pt.cross (q0 - q1) (p0 - p1)) ≠ 0 := by
      rw [ss3d_den_symm]; exact hden
    have E1 := ss3d_main_point p0 p1 q0 q1 hcop hden
    have E2 := ss3d_eps_point p0 p1 q0 q1 hden
    have E3 := ss3d_eps_point q0 q1 p0 p1 hden'
    rw [ss3d_den_symm p0 p1 q0 q1] at E3
    have hL1 : ¬(Pt.squared_norm (Pt.cross (p0 - p1) (q0 - q1)) = 0 ∧
        Pt.dot (Pt.cross (p0 - p1) (q0 - q1)) (Pt.cross (q0 - q1) (p1 - q1)) = 0) :=
      fun h => hden h.1
    have hL2 : ¬(Pt.squared_norm (Pt.cross (p0 - p1) (q0 - q1)) = 0 ∧
        Pt.dot (Pt.cross (p0 - p1) (q0 - q1)) (Pt.cross (q0 - q1) (p1 - q1)) ≠ 0) :=
      fun h => hden h.1
    have hR1 : ¬(Pt.squared_norm (Pt.cross (p0 - p1) (q0 - q1)) = 0 ∧
        Pt.dot (Pt.cross (q0 - q1) (p0 - p1)) (Pt.cross (p0 - p1) (q1 - p1)) = 0) :=
      fun h => hden h.1
    have hR2 : ¬(Pt.squared_norm (Pt.cross (p0 - p1) (q0 - q1)) = 0 ∧
        Pt.dot (Pt.cross (q0 - q1) (p0 - p1)) (Pt.cross (p0 - p1) (q1 - p1)) ≠ 0) :=
      fun h => hden h.1
    rw [if_neg hL1, if_neg hL2, if_neg hR1, if_neg hR2]
    congr 1
    congr 1
    split_ifs with h1 h2
    · exact E2.trans (E1.symm.trans E3.symm)
    · exact E2.trans E1.symm
    · exact E1.symm.trans E3.symm
    · exact E1.symm

/-- Set-symmetry of the 3D segment–segment intersector. -/
lemma ss3d_symm (p0 p1 q0 q1 x : Pt) :
    x ∈ intersection_segment_segment_3d p0 p1 q0 q1
      ↔ x ∈ intersection_segment_segment_3d q0 q1 p0 p1 := by
  by_cases hc : collides_segment_segment_3d p0 p1 q0 q1
  case neg =>
    have hc' : ¬ collides_segment_segment_3d q0 q1 p0 p1 :=
      fun h => hc ((collides_segment_segment_3d_symm p0 p1 q0 q1).mp h)
    unfold intersection_segment_segment_3d
    rw [if_pos hc, if_pos hc']
  case pos =>
    have hc' : collides_segment_segment_3d q0 q1 p0 p1 :=
      (collides_segment_segment_3d_symm p0 p1 q0 q1).mpr hc
    by_cases hp : p0 = p1 ∧ collides_segment_point_3d q0 q1 p0
    · by_cases hq : q0 = q1 ∧ collides_segment_point_3d p0 p1 q0
      · obtain ⟨hp1, hp2⟩ := hp
        obtain ⟨hq1, hq2⟩ := hq
        subst hp1
        subst hq1
        have he : p0 = q0 := (collides_segment_point_3d_degenerate q0 p0).mp hp2
        subst he
        exact Iff.rfl
      · obtain ⟨hp1, hp2⟩ := hp
        subst hp1
        unfold intersection_segment_segment_3d
        rw [if_neg (not_not_intro hc), if_neg (not_not_intro hc')]
        rw [if_pos ⟨rfl, hp2⟩, if_neg hq, if_pos ⟨rfl, hp2⟩]
    · by_cases hq : q0 = q1 ∧ collides_segment_point_3d p0 p1 q0
      · obtain ⟨hq1, hq2⟩ := hq
        subst hq1
        unfold intersection_segment_segment_3d
        rw [if_neg (not_not_intro hc), if_neg (not_not_intro hc')]
        rw [if_neg hp, if_pos ⟨rfl, hq2⟩, if_pos ⟨rfl, hq2⟩]
      · by_cases hA : collides_segment_point_3d q0 q1 p0 <;>
          by_cases hB : collides_segment_point_3d q0 q1 p1 <;>
          by_cases hC : collides_segment_point_3d p0 p1 q0 <;>
          by_cases hD : collides_segment_point_3d p0 p1 q1
        on_goal 16 =>
          have hS : orient3d p0 p1 q0 q1 = 0 := by
            rcases hc with h | h | h | h | h
            · exact absurd h hA
            · exact absurd h hB
            · exact absurd h hC
            · exact absurd h hD
            · exact h.1
          simp only [intersection_segment_segment_3d]
          rw [if_neg (not_not_intro hc), if_neg (not_not_intro hc'),
            if_neg hp, if_neg hq, if_neg hq, if_neg hp]
          rw [if_neg hA, if_neg hB, if_neg hC, if_neg hD]
          simp only [List.nil_append, List.length_nil]
          have h01 : ¬((0 : ℕ) = 1) := by decide
          have hgt : ¬((0 : ℕ) > 1) := by decide
          rw [if_neg h01, if_neg h01, if_neg hgt, if_neg hgt]
          exact iff_of_eq (congrArg (fun l => x ∈ l) (ss3d_tail_symm p0 p1 q0 q1 hS))
        all_goals try have hp2 : ¬ p0 = p1 := fun h => hp ⟨h, hA⟩
        all_goals try have hq2 : ¬ q0 = q1 := fun h => hq ⟨h, hC⟩
        all_goals
          simp [intersection_segment_segment_3d, hc, hc', hp, hq, hA, hB, hC, hD,
            mem_unique_points, mem_ite_nil, *]
        all_goals tauto

/-- Membership in a 3D triangle–point intersection, with the collision
predicate kept opaque. -/
lemma mem_triangle_point_3d {p0 p1 p2 q x : Pt} :
    x ∈ intersection_triangle_point_3d p0 p1 p2 q
      ↔ collides_triangle_point_3d p0 p1 p2 q ∧ x = q := by
  unfold intersection_triangle_point_3d
  exact mem_ite_nil

/-- Membership in a 3D tetrahedron–point intersection, with the collision
predicate kept opaque. -/
lemma mem_tetrahedron_point_3d {p0 p1 p2 p3 q x : Pt} :
    x ∈ intersection_tetrahedron_point_3d p0 p1 p2 p3 q
      ↔ collides_tetrahedron_point_3d p0 p1 p2 p3 q ∧ x = q := by
  unfold intersection_tetrahedron_point_3d
  exact mem_ite_nil

/-- Set-symmetry of the 3D triangle–triangle intersector (whose
triangle–segment subcalls all return the empty list). -/
lemma tri_tri_3d_symm (p0 p1 p2 q0 q1 q2 x : Pt) :
    x ∈ intersection_triangle_triangle_3d p0 p1 p2 q0 q1 q2
      ↔ x ∈ intersection_triangle_triangle_3d q0 q1 q2 p0 p1 p2 := by
  simp only [intersection_triangle_triangle_3d, mem_unique_points, List.mem_append,
    triangle_segment_3d_nil, List.not_mem_nil, or_false,
    mem_triangle_point_3d]
  tauto

/-- Set-symmetry of the 3D tetrahedron–tetrahedron intersector (whose
triangle–segment subcalls all return the empty list). -/
lemma tet_tet_symm (p0 p1 p2 p3 q0 q1 q2 q3 x : Pt) :
    x ∈ intersection_tetrahedron_tetrahedron_3d p0 p1 p2 p3 q0 q1 q2 q3
      ↔ x ∈ intersection_tetrahedron_tetrahedron_3d q0 q1 q2 q3 p0 p1 p2 p3 := by
  simp only [intersection_tetrahedron_tetrahedron_3d, mem_unique_points, List.mem_append,
    triangle_segment_3d_nil, List.not_mem_nil, or_false,
    mem_tetrahedron_point_3d]
  itauto

/-- The dispatch layer normalizes the argument order of every supported
mixed-dimension pair, so both orders invoke the identical specialized
intersector. -/
lemma dispatch_mixed_symm (p q : List Pt) (g : ℕ)
    (hne : p.length - 1 ≠ q.length - 1)
    (h : supported_combination (p.length - 1) (q.length - 1) g) :
    intersection p q g = intersection q p g := by
  rcases h with ⟨h0, h1, _⟩ | ⟨h0, h1, hg⟩ | ⟨h0, h1, hg⟩ | ⟨h0, h1, _⟩ | ⟨h0, h1, hg⟩
    | ⟨h0, h1, hg⟩ | ⟨h0, h1, _⟩
  · exact absurd (h0.trans h1.symm) hne
  · rcases hg with rfl | rfl <;> simp [intersection, h0, h1]
  · rcases hg with rfl | rfl <;> simp [intersection, h0, h1]
  · exact absurd (h0.trans h1.symm) hne
  · subst hg; simp [intersection, h0, h1]
  · subst hg; simp [intersection, h0, h1]
  · exact absurd (h0.trans h1.symm) hne

end IntersectionConstruction

namespace IntersectionConstruction

/-- Claim C1: for every input triangle and segment in 3D,
`intersection_triangle_segment_3d` returns the empty point list (it either
returns early on a strictly positive orientation product or falls through
past the disabled code), and consequently each 3D composite intersector
accumulates only the vertex-containment points and never an edge–face
crossing point. -/
theorem claim_C1 :
    (∀ p0 p1 p2 q0 q1 : Pt, intersection_triangle_segment_3d p0 p1 p2 q0 q1 = [])
    ∧ (∀ p0 p1 p2 p3 q0 q1 : Pt,
        intersection_tetrahedron_segment_3d p0 p1 p2 p3 q0 q1 =
          intersection_tetrahedron_point_3d p0 p1 p2 p3 q0
            ++ intersection_tetrahedron_point_3d p0 p1 p2 p3 q1)
    ∧ (∀ p0 p1 p2 q0 q1 q2 : Pt,
        intersection_triangle_triangle_3d p0 p1 p2 q0 q1 q2 =
          _unique_points (intersection_triangle_point_3d p0 p1 p2 q0
            ++ intersection_triangle_point_3d p0 p1 p2 q1
            ++ intersection_triangle_point_3d p0 p1 p2 q2
            ++ intersection_triangle_point_3d q0 q1 q2 p0
            ++ intersection_triangle_point_3d q0 q1 q2 p1
            ++ intersection_triangle_point_3d q0 q1 q2 p2))
    ∧ (∀ p0 p1 p2 p3 q0 q1 q2 : Pt,
        intersection_tetrahedron_triangle_3d p0 p1 p2 p3 q0 q1 q2 =
          _unique_points (intersection_tetrahedron_point_3d p0 p1 p2 p3 q0
            ++ intersection_tetrahedron_point_3d p0 p1 p2 p3 q1
            ++ intersection_tetrahedron_point_3d p0 p1 p2 p3 q2
            ++ intersection_triangle_point_3d q0 q1 q2 p0
            ++ intersection_triangle_point_3d q0 q1 q2 p1
            ++ intersection_triangle_point_3d q0 q1 q2 p2
            ++ intersection_triangle_point_3d q0 q1 q2 p3))
    ∧ (∀ p0 p1 p2 p3 q0 q1 q2 q3 : Pt,
        intersection_tetrahedron_tetrahedron_3d p0 p1 p2 p3 q0 q1 q2 q3 =
          _unique_points (intersection_tetrahedron_point_3d p0 p1 p2 p3 q0
            ++ intersection_tetrahedron_point_3d p0 p1 p2 p3 q1
            ++ intersection_tetrahedron_point_3d p0 p1 p2 p3 q2
            ++ intersection_tetrahedron_point_3d p0 p1 p2 p3 q3
            ++ intersection_tetrahedron_point_3d q0 q1 q2 q3 p0
            ++ intersection_tetrahedron_point_3d q0 q1 q2 q3 p1
            ++ intersection_tetrahedron_point_3d q0 q1 q2 q3 p2
            ++ intersection_tetrahedron_point_3d q0 q1 q2 q3 p3)) := by
  refine ⟨triangle_segment_3d_nil, ?_, ?_, ?_, ?_⟩ <;> intros <;>
    simp [intersection_tetrahedron_segment_3d, intersection_triangle_triangle_3d,
      intersection_tetrahedron_triangle_3d, intersection_tetrahedron_tetrahedron_3d,
      triangle_segment_3d_nil]

/-- Claim C10: the mesh-entity convenience overload takes the ambient
geometric dimension from the first entity's mesh geometry only — replacing
the geometric dimension recorded in the second entity's mesh geometry by any
other value leaves the result unchanged. -/
theorem claim_C10 (e0 e1 : MeshEntity) (d : ℕ) :
    intersection_entities e0 ⟨⟨d, e1.geometry.point⟩, e1.dim, e1.entities0⟩
      = intersection_entities e0 e1 := rfl

/-- Claim C2 (failing input): the duplicate-free invariant is violated by the
code.  The top-level intersection of the degenerate 1D segment (0,0) with
itself returns the point 0 twice, and the tetrahedron–segment intersector
(which skips `_unique_points`) returns a duplicated interior point for a
degenerate segment inside the tetrahedron. -/
theorem claim_C2 :
    intersection [⟨0,0,0⟩, ⟨0,0,0⟩] [⟨0,0,0⟩, ⟨0,0,0⟩] 1
      = .ok [⟨0,0,0⟩, ⟨0,0,0⟩]
    ∧ ¬ ([(⟨0,0,0⟩ : Pt), ⟨0,0,0⟩]).Nodup
    ∧ intersection_tetrahedron_segment_3d ⟨0,0,0⟩ ⟨1,0,0⟩ ⟨0,1,0⟩ ⟨0,0,1⟩
        ⟨1/4,1/4,1/4⟩ ⟨1/4,1/4,1/4⟩
      = [⟨1/4,1/4,1/4⟩, ⟨1/4,1/4,1/4⟩]
    ∧ ¬ ([(⟨1/4,1/4,1/4⟩ : Pt), ⟨1/4,1/4,1/4⟩]).Nodup := by
  refine ⟨?_, by simp, ?_, by simp⟩
  · norm_num [intersection, intersection_segment_segment_1d, add_if_equal_chain, add_if_equal,
      orient1d, Pt.coord, zeroPt, Pt.mk.injEq]
  · norm_num [intersection_tetrahedron_segment_3d, intersection_tetrahedron_point_3d,
      intersection_triangle_segment_3d, collides_tetrahedron_point_3d, orient3d,
      Pt.mk.injEq, Pt.sub_def]

/-- Claim C3 (counterexample): symmetry of the top-level intersection fails.
For two equal-length straddling 2D segments at a small scale, one argument
order takes the exact-formula branch and the other enters the near-collinear
stability guard (whose threshold test uses the orientation of the first
argument's parametrization base), so the two orders return different points. -/
theorem claim_C3_counterexample :
    intersection [⟨0,0,0⟩, ⟨3/25000000, 3/200000000, 0⟩]
        [⟨3/100000000, -3/200000000, 0⟩, ⟨27/200000000, 9/200000000, 0⟩] 2
      = .ok [⟨9/125000000, 9/1000000000, 0⟩]
    ∧ intersection [⟨3/100000000, -3/200000000, 0⟩, ⟨27/200000000, 9/200000000, 0⟩]
        [⟨0,0,0⟩, ⟨3/25000000, 3/200000000, 0⟩] 2
      = .ok [⟨3/40000000, 0, 0⟩]
    ∧ (⟨9/125000000, 9/1000000000, 0⟩ : Pt) ∈ [(⟨9/125000000, 9/1000000000, 0⟩ : Pt)]
    ∧ (⟨9/125000000, 9/1000000000, 0⟩ : Pt) ∉ [(⟨3/40000000, 0, 0⟩ : Pt)] := by
  refine ⟨?_, ?_, by simp, by norm_num [Pt.mk.injEq]⟩ <;>
    norm_num [intersection, intersection_segment_segment_2d, ss2d_num, ss2d_den, ss2d_x,
      _unique_points, add_if_equal_chain, add_if_equal, orient2d, DOLFIN_EPS_LARGE,
      major_axis_2d, rabs, project_to_axis_2d, Pt.coord, collides_segment_point_1d,
      Pt.squared_distance, sort_by_axis, insert_by_axis,
      Pt.mk.injEq, zeroPt, Pt.sub_def, Pt.add_def, Pt.smul_def]

/-- Claim C3 (amended): `intersect(A,B) == intersect(B,A)` as sets holds for
all supported mixed-dimension pairs (the dispatch layer normalizes the
argument order, so both orders invoke the identical specialized routine), for
1D segment–segment, for 3D segment–segment (the collision guard and the
endpoint tests are symmetric, the Shewchuk denominator is swap-invariant, and
every branch formula produces the identical exact intersection point of the
two coplanar supporting lines), and for the 3D triangle–triangle and
tetrahedron–tetrahedron intersectors (whose edge–face subcalls return no
points); it fails for computations reaching the 2D segment–segment kernel
when the near-collinear stability guard triggers, since the guard and its
fallback depend on the argument order (see the counterexample). -/
theorem claim_C3_amended :
    (∀ (p q : List Pt) (g : ℕ),
      p.length - 1 ≠ q.length - 1 →
      supported_combination (p.length - 1) (q.length - 1) g →
      intersection p q g = intersection q p g)
    ∧ (∀ p0 p1 q0 q1 x : ℚ,
      x ∈ intersection_segment_segment_1d p0 p1 q0 q1
        ↔ x ∈ intersection_segment_segment_1d q0 q1 p0 p1)
    ∧ (∀ p0 p1 q0 q1 x : Pt,
      x ∈ intersection_segment_segment_3d p0 p1 q0 q1
        ↔ x ∈ intersection_segment_segment_3d q0 q1 p0 p1)
    ∧ (∀ p0 p1 p2 q0 q1 q2 x : Pt,
      x ∈ intersection_triangle_triangle_3d p0 p1 p2 q0 q1 q2
        ↔ x ∈ intersection_triangle_triangle_3d q0 q1 q2 p0 p1 p2)
    ∧ (∀ p0 p1 p2 p3 q0 q1 q2 q3 x : Pt,
      x ∈ intersection_tetrahedron_tetrahedron_3d p0 p1 p2 p3 q0 q1 q2 q3
        ↔ x ∈ intersection_tetrahedron_tetrahedron_3d q0 q1 q2 q3 p0 p1 p2 p3) :=
  ⟨dispatch_mixed_symm, ss1d_symm, ss3d_symm, tri_tri_3d_symm, tet_tet_symm⟩

/-- Witness for the amended claim C3 at a concrete mixed-dimension pair. -/
theorem claim_C3_amended_witness :
    (([zeroPt, zeroPt] : List Pt).length - 1 ≠ ([zeroPt, zeroPt, zeroPt] : List Pt).length - 1
      ∧ supported_combination (([zeroPt, zeroPt] : List Pt).length - 1)
          (([zeroPt, zeroPt, zeroPt] : List Pt).length - 1) 2)
    ∧ intersection [zeroPt, zeroPt] [zeroPt, zeroPt, zeroPt] 2
        = intersection [zeroPt, zeroPt, zeroPt] [zeroPt, zeroPt] 2 :=
  ⟨⟨by decide, by decide⟩,
   claim_C3_amended.1 [zeroPt, zeroPt] [zeroPt, zeroPt, zeroPt] 2 (by decide) (by decide)⟩

/-- Claim C4: every unsupported combination of topological dimensions and
geometric dimension reaching the dispatch layer aborts through `dolfin_error`
with the offending dimensions, and never returns a point list. -/
theorem claim_C4 (p q : List Pt) (gdim : ℕ)
    (h : ¬ supported_combination (p.length - 1) (q.length - 1) gdim) :
    intersection p q gdim = .error ⟨p.length - 1, q.length - 1, gdim⟩ := by
  simp only [intersection, dolfin_error]
  split_ifs
  all_goals try (with_reducible rfl)
  all_goals (exfalso; apply h; unfold supported_combination; omega)

/-- Witness for claim C4 at the unsupported combination of two triangles in
geometric dimension 1. -/
theorem claim_C4_witness :
    ¬ supported_combination (([zeroPt, zeroPt, zeroPt] : List Pt).length - 1)
        (([zeroPt, zeroPt, zeroPt] : List Pt).length - 1) 1
    ∧ intersection [zeroPt, zeroPt, zeroPt] [zeroPt, zeroPt, zeroPt] 1
        = .error ⟨2, 2, 1⟩ :=
  ⟨by decide, claim_C4 [zeroPt, zeroPt, zeroPt] [zeroPt, zeroPt, zeroPt] 1 (by decide)⟩

/-- Claim C5: in 2D segment–segment intersection, when both orientation
products are strictly negative and the stability guard
`|den·den| < ε_large·|num|` triggers, the function returns exactly one point:
the midpoint of the two middle points obtained by sorting the four endpoints
along the dominant coordinate axis of the first segment, instead of the
division-based formula. -/
theorem claim_C5 (p0 p1 q0 q1 : Pt)
    (hp : orient2d q0 q1 p0 * orient2d q0 q1 p1 < 0)
    (hq : orient2d p0 p1 q0 * orient2d p0 p1 q1 < 0)
    (hguard : rabs (ss2d_den p0 p1 q0 q1 * ss2d_den p0 p1 q0 q1)
      < DOLFIN_EPS_LARGE * rabs (ss2d_num p0 p1 q0 q1)) :
    intersection_segment_segment_2d p0 p1 q0 q1 =
      [((1 : ℚ) / 2) •
        ((sort_by_axis (major_axis_2d (p1 - p0)) [p0, p1, q0, q1]).getD 1 zeroPt
          + (sort_by_axis (major_axis_2d (p1 - p0)) [p0, p1, q0, q1]).getD 2 zeroPt)] := by
  have h1 : ¬ (orient2d q0 q1 p0 * orient2d q0 q1 p1 > 0
      ∨ orient2d p0 p1 q0 * orient2d p0 p1 q1 > 0) := by
    push_neg
    exact ⟨le_of_lt hp, le_of_lt hq⟩
  have h2 : ¬ (orient2d q0 q1 p0 * orient2d q0 q1 p1 = 0
      ∨ orient2d p0 p1 q0 * orient2d p0 p1 q1 = 0) := by
    push_neg
    exact ⟨ne_of_lt hp, ne_of_lt hq⟩
  simp only [intersection_segment_segment_2d]
  rw [if_neg h1, if_neg h2, if_pos hguard]

/-- Witness for claim C5 at a concrete guard-triggering input: two
equal-length straddling segments at scale `s = 1.5e-8`. -/
theorem claim_C5_witness :
    (orient2d ⟨0,0,0⟩ ⟨3/25000000, 3/200000000, 0⟩ ⟨3/100000000, -3/200000000, 0⟩
        * orient2d ⟨0,0,0⟩ ⟨3/25000000, 3/200000000, 0⟩ ⟨27/200000000, 9/200000000, 0⟩ < 0
      ∧ orient2d ⟨3/100000000, -3/200000000, 0⟩ ⟨27/200000000, 9/200000000, 0⟩ ⟨0,0,0⟩
        * orient2d ⟨3/100000000, -3/200000000, 0⟩ ⟨27/200000000, 9/200000000, 0⟩
            ⟨3/25000000, 3/200000000, 0⟩ < 0
      ∧ rabs (ss2d_den ⟨3/100000000, -3/200000000, 0⟩ ⟨27/200000000, 9/200000000, 0⟩
            ⟨0,0,0⟩ ⟨3/25000000, 3/200000000, 0⟩
          * ss2d_den ⟨3/100000000, -3/200000000, 0⟩ ⟨27/200000000, 9/200000000, 0⟩
            ⟨0,0,0⟩ ⟨3/25000000, 3/200000000, 0⟩)
        < DOLFIN_EPS_LARGE * rabs (ss2d_num ⟨3/100000000, -3/200000000, 0⟩
            ⟨27/200000000, 9/200000000, 0⟩ ⟨0,0,0⟩ ⟨3/25000000, 3/200000000, 0⟩))
    ∧ intersection_segment_segment_2d ⟨3/100000000, -3/200000000, 0⟩
        ⟨27/200000000, 9/200000000, 0⟩ ⟨0,0,0⟩ ⟨3/25000000, 3/200000000, 0⟩ =
      [((1 : ℚ) / 2) •
        ((sort_by_axis (major_axis_2d (⟨27/200000000, 9/200000000, 0⟩ - ⟨3/100000000, -3/200000000, 0⟩))
            [⟨3/100000000, -3/200000000, 0⟩, ⟨27/200000000, 9/200000000, 0⟩, ⟨0,0,0⟩,
              ⟨3/25000000, 3/200000000, 0⟩]).getD 1 zeroPt
          + (sort_by_axis (major_axis_2d (⟨27/200000000, 9/200000000, 0⟩ - ⟨3/100000000, -3/200000000, 0⟩))
            [⟨3/100000000, -3/200000000, 0⟩, ⟨27/200000000, 9/200000000, 0⟩, ⟨0,0,0⟩,
              ⟨3/25000000, 3/200000000, 0⟩]).getD 2 zeroPt)] :=
  ⟨⟨by norm_num [orient2d],
    by norm_num [orient2d],
    by norm_num [ss2d_num, ss2d_den, orient2d, Pt.squared_distance, rabs, DOLFIN_EPS_LARGE]⟩,
   claim_C5 _ _ _ _
     (by norm_num [orient2d])
     (by norm_num [orient2d])
     (by norm_num [ss2d_num, ss2d_den, orient2d, Pt.squared_distance, rabs, DOLFIN_EPS_LARGE])⟩

/-- Claim C6 (counterexample): the tie-break of the claim fails on the code.
For two strictly crossing segments of exactly equal squared length, the
squared length of `p` is less than or equal to that of `q`, yet the code
parametrizes along `q`: the `num` used is the orientation of `q0`, not of
`p0`, and the `den` is built from the direction of `q`, not of `p`. -/
theorem claim_C6_counterexample :
    orient2d ⟨2,-1,0⟩ ⟨9,3,0⟩ ⟨0,0,0⟩ * orient2d ⟨2,-1,0⟩ ⟨9,3,0⟩ ⟨8,1,0⟩ < 0
    ∧ orient2d ⟨0,0,0⟩ ⟨8,1,0⟩ ⟨2,-1,0⟩ * orient2d ⟨0,0,0⟩ ⟨8,1,0⟩ ⟨9,3,0⟩ < 0
    ∧ Pt.squared_distance ⟨0,0,0⟩ ⟨8,1,0⟩ ≤ Pt.squared_distance ⟨2,-1,0⟩ ⟨9,3,0⟩
    ∧ ss2d_num ⟨0,0,0⟩ ⟨8,1,0⟩ ⟨2,-1,0⟩ ⟨9,3,0⟩ = -10
    ∧ orient2d ⟨2,-1,0⟩ ⟨9,3,0⟩ ⟨0,0,0⟩ = 15
    ∧ ss2d_den ⟨0,0,0⟩ ⟨8,1,0⟩ ⟨2,-1,0⟩ ⟨9,3,0⟩ = -25
    ∧ ¬ (Pt.squared_distance ⟨0,0,0⟩ ⟨8,1,0⟩ ≤ Pt.squared_distance ⟨2,-1,0⟩ ⟨9,3,0⟩ →
        ss2d_num ⟨0,0,0⟩ ⟨8,1,0⟩ ⟨2,-1,0⟩ ⟨9,3,0⟩ = orient2d ⟨2,-1,0⟩ ⟨9,3,0⟩ ⟨0,0,0⟩) := by
  norm_num [ss2d_num, ss2d_den, orient2d, Pt.squared_distance]

/-- Claim C6 (amended): in the main case (both orientation products strictly
negative) the intersection point `x = base + (num/den)·dir` is parametrized
along the strictly shorter segment; on a tie (equal squared lengths) the base
is `q`, not `p`: `num` and `den` are taken from `p` exactly when the squared
length of `p` is strictly less than that of `q`, and from `q` otherwise, and
when the stability guard does not trigger the function returns exactly the
point `x` so computed. -/
theorem claim_C6_amended (p0 p1 q0 q1 : Pt)
    (hp : orient2d q0 q1 p0 * orient2d q0 q1 p1 < 0)
    (hq : orient2d p0 p1 q0 * orient2d p0 p1 q1 < 0) :
    (Pt.squared_distance p0 p1 < Pt.squared_distance q0 q1 →
      ss2d_num p0 p1 q0 q1 = orient2d q0 q1 p0
      ∧ ss2d_den p0 p1 q0 q1
          = (p1.x - p0.x) * (q1.y - q0.y) - (p1.y - p0.y) * (q1.x - q0.x)
      ∧ ss2d_x p0 p1 q0 q1
          = p0 + (ss2d_num p0 p1 q0 q1 / ss2d_den p0 p1 q0 q1) • (p1 - p0))
    ∧ (¬ Pt.squared_distance p0 p1 < Pt.squared_distance q0 q1 →
      ss2d_num p0 p1 q0 q1 = orient2d p0 p1 q0
      ∧ ss2d_den p0 p1 q0 q1
          = (q1.x - q0.x) * (p1.y - p0.y) - (q1.y - q0.y) * (p1.x - p0.x)
      ∧ ss2d_x p0 p1 q0 q1
          = q0 + (ss2d_num p0 p1 q0 q1 / ss2d_den p0 p1 q0 q1) • (q1 - q0))
    ∧ (¬ rabs (ss2d_den p0 p1 q0 q1 * ss2d_den p0 p1 q0 q1)
          < DOLFIN_EPS_LARGE * rabs (ss2d_num p0 p1 q0 q1) →
      intersection_segment_segment_2d p0 p1 q0 q1 = [ss2d_x p0 p1 q0 q1]) := by
  refine ⟨fun hlt => ?_, fun hge => ?_, fun hg => ?_⟩
  · refine ⟨?_, ?_, ?_⟩
    · unfold ss2d_num; rw [if_pos hlt]
    · unfold ss2d_den; rw [if_pos hlt]
    · unfold ss2d_x; rw [if_pos hlt]
  · refine ⟨?_, ?_, ?_⟩
    · unfold ss2d_num; rw [if_neg hge]
    · unfold ss2d_den; rw [if_neg hge]
    · unfold ss2d_x; rw [if_neg hge]
  · have h1 : ¬ (orient2d q0 q1 p0 * orient2d q0 q1 p1 > 0
        ∨ orient2d p0 p1 q0 * orient2d p0 p1 q1 > 0) := by
      push_neg
      exact ⟨le_of_lt hp, le_of_lt hq⟩
    have h2 : ¬ (orient2d q0 q1 p0 * orient2d q0 q1 p1 = 0
        ∨ orient2d p0 p1 q0 * orient2d p0 p1 q1 = 0) := by
      push_neg
      exact ⟨ne_of_lt hp, ne_of_lt hq⟩
    simp only [intersection_segment_segment_2d]
    rw [if_neg h1, if_neg h2, if_neg hg]
    simp [_unique_points]

/-- Witness for the amended claim C6 at a concrete strictly crossing pair
with strictly different lengths. -/
theorem claim_C6_witness :
    (orient2d ⟨1,-1,0⟩ ⟨1,2,0⟩ ⟨0,0,0⟩ * orient2d ⟨1,-1,0⟩ ⟨1,2,0⟩ ⟨2,0,0⟩ < 0
      ∧ orient2d ⟨0,0,0⟩ ⟨2,0,0⟩ ⟨1,-1,0⟩ * orient2d ⟨0,0,0⟩ ⟨2,0,0⟩ ⟨1,2,0⟩ < 0)
    ∧ ((Pt.squared_distance ⟨0,0,0⟩ ⟨2,0,0⟩ < Pt.squared_distance ⟨1,-1,0⟩ ⟨1,2,0⟩ →
        ss2d_num ⟨0,0,0⟩ ⟨2,0,0⟩ ⟨1,-1,0⟩ ⟨1,2,0⟩ = orient2d ⟨1,-1,0⟩ ⟨1,2,0⟩ ⟨0,0,0⟩
        ∧ ss2d_den ⟨0,0,0⟩ ⟨2,0,0⟩ ⟨1,-1,0⟩ ⟨1,2,0⟩
            = ((⟨2,0,0⟩ : Pt).x - (⟨0,0,0⟩ : Pt).x) * ((⟨1,2,0⟩ : Pt).y - (⟨1,-1,0⟩ : Pt).y)
              - ((⟨2,0,0⟩ : Pt).y - (⟨0,0,0⟩ : Pt).y) * ((⟨1,2,0⟩ : Pt).x - (⟨1,-1,0⟩ : Pt).x)
        ∧ ss2d_x ⟨0,0,0⟩ ⟨2,0,0⟩ ⟨1,-1,0⟩ ⟨1,2,0⟩
            = ⟨0,0,0⟩ + (ss2d_num ⟨0,0,0⟩ ⟨2,0,0⟩ ⟨1,-1,0⟩ ⟨1,2,0⟩
                / ss2d_den ⟨0,0,0⟩ ⟨2,0,0⟩ ⟨1,-1,0⟩ ⟨1,2,0⟩) • ((⟨2,0,0⟩ : Pt) - ⟨0,0,0⟩))
      ∧ (¬ Pt.squared_distance ⟨0,0,0⟩ ⟨2,0,0⟩ < Pt.squared_distance ⟨1,-1,0⟩ ⟨1,2,0⟩ →
        ss2d_num ⟨0,0,0⟩ ⟨2,0,0⟩ ⟨1,-1,0⟩ ⟨1,2,0⟩ = orient2d ⟨0,0,0⟩ ⟨2,0,0⟩ ⟨1,-1,0⟩
        ∧ ss2d_den ⟨0,0,0⟩ ⟨2,0,0⟩ ⟨1,-1,0⟩ ⟨1,2,0⟩
            = ((⟨1,2,0⟩ : Pt).x - (⟨1,-1,0⟩ : Pt).x) * ((⟨2,0,0⟩ : Pt).y - (⟨0,0,0⟩ : Pt).y)
              - ((⟨1,2,0⟩ : Pt).y - (⟨1,-1,0⟩ : Pt).y) * ((⟨2,0,0⟩ : Pt).x - (⟨0,0,0⟩ : Pt).x)
        ∧ ss2d_x ⟨0,0,0⟩ ⟨2,0,0⟩ ⟨1,-1,0⟩ ⟨1,2,0⟩
            = ⟨1,-1,0⟩ + (ss2d_num ⟨0,0,0⟩ ⟨2,0,0⟩ ⟨1,-1,0⟩ ⟨1,2,0⟩
                / ss2d_den ⟨0,0,0⟩ ⟨2,0,0⟩ ⟨1,-1,0⟩ ⟨1,2,0⟩) • ((⟨1,2,0⟩ : Pt) - ⟨1,-1,0⟩))
      ∧ (¬ rabs (ss2d_den ⟨0,0,0⟩ ⟨2,0,0⟩ ⟨1,-1,0⟩ ⟨1,2,0⟩
            * ss2d_den ⟨0,0,0⟩ ⟨2,0,0⟩ ⟨1,-1,0⟩ ⟨1,2,0⟩)
          < DOLFIN_EPS_LARGE * rabs (ss2d_num ⟨0,0,0⟩ ⟨2,0,0⟩ ⟨1,-1,0⟩ ⟨1,2,0⟩) →
        intersection_segment_segment_2d ⟨0,0,0⟩ ⟨2,0,0⟩ ⟨1,-1,0⟩ ⟨1,2,0⟩
          = [ss2d_x ⟨0,0,0⟩ ⟨2,0,0⟩ ⟨1,-1,0⟩ ⟨1,2,0⟩])) :=
  ⟨⟨by norm_num [orient2d], by norm_num [orient2d]⟩,
   claim_C6_amended ⟨0,0,0⟩ ⟨2,0,0⟩ ⟨1,-1,0⟩ ⟨1,2,0⟩
     (by norm_num [orient2d]) (by norm_num [orient2d])⟩

/-- Claim C7: in 1D and 2D segment–segment intersection, a strictly positive
orientation product (the endpoints of one segment lie strictly on the same
side of the other segment's supporting line) makes the function return the
empty point list. -/
theorem claim_C7 :
    (∀ p0 p1 q0 q1 : ℚ,
      orient1d q0 q1 p0 * orient1d q0 q1 p1 > 0
        ∨ orient1d p0 p1 q0 * orient1d p0 p1 q1 > 0 →
      intersection_segment_segment_1d p0 p1 q0 q1 = [])
    ∧ (∀ p0 p1 q0 q1 : Pt,
      orient2d q0 q1 p0 * orient2d q0 q1 p1 > 0
        ∨ orient2d p0 p1 q0 * orient2d p0 p1 q1 > 0 →
      intersection_segment_segment_2d p0 p1 q0 q1 = []) := by
  constructor
  · intro p0 p1 q0 q1 h
    simp only [intersection_segment_segment_1d]
    rw [if_pos h]
  · intro p0 p1 q0 q1 h
    simp only [intersection_segment_segment_2d]
    rw [if_pos h]

/-- Witness for claim C7 on concrete disjoint segment pairs in 1D and 2D. -/
theorem claim_C7_witness :
    ((orient1d 5 9 0 * orient1d 5 9 1 > 0 ∨ orient1d 0 1 5 * orient1d 0 1 9 > 0)
      ∧ intersection_segment_segment_1d 0 1 5 9 = [])
    ∧ ((orient2d ⟨0,1,0⟩ ⟨1,1,0⟩ ⟨0,0,0⟩ * orient2d ⟨0,1,0⟩ ⟨1,1,0⟩ ⟨1,0,0⟩ > 0
        ∨ orient2d ⟨0,0,0⟩ ⟨1,0,0⟩ ⟨0,1,0⟩ * orient2d ⟨0,0,0⟩ ⟨1,0,0⟩ ⟨1,1,0⟩ > 0)
      ∧ intersection_segment_segment_2d ⟨0,0,0⟩ ⟨1,0,0⟩ ⟨0,1,0⟩ ⟨1,1,0⟩ = []) :=
  ⟨⟨by norm_num [orient1d], claim_C7.1 0 1 5 9 (by norm_num [orient1d])⟩,
   ⟨by norm_num [orient2d],
    claim_C7.2 ⟨0,0,0⟩ ⟨1,0,0⟩ ⟨0,1,0⟩ ⟨1,1,0⟩ (by norm_num [orient2d])⟩⟩

/-- Claim C8 (failing input): a degenerate first segment `(p,p)` collinear
with but outside the second segment makes the code project onto the major
axis of the zero vector `p1 - p0` and return the second segment's endpoints
— two points rather than the empty set, although `p` does not lie on
`(q0,q1)`; the positive example of the claim does hold as a set. -/
theorem claim_C8 :
    intersection_segment_segment_2d ⟨0,5,0⟩ ⟨0,5,0⟩ ⟨0,0,0⟩ ⟨0,1,0⟩
      = [⟨0,0,0⟩, ⟨0,1,0⟩]
    ∧ ¬ collides_segment_point_2d ⟨0,0,0⟩ ⟨0,1,0⟩ ⟨0,5,0⟩
    ∧ (⟨0,5,0⟩ : Pt) ∉ [(⟨0,0,0⟩ : Pt), ⟨0,1,0⟩]
    ∧ intersection_segment_segment_2d ⟨0,0,0⟩ ⟨0,0,0⟩ ⟨-1,0,0⟩ ⟨1,0,0⟩
      = [⟨0,0,0⟩, ⟨0,0,0⟩]
    ∧ (∀ x : Pt, x ∈ [(⟨0,0,0⟩ : Pt), ⟨0,0,0⟩] ↔ x = ⟨0,0,0⟩) := by
  refine ⟨?_, ?_, ?_, ?_, by simp⟩
  · norm_num [intersection_segment_segment_2d, add_if_equal_chain, add_if_equal, orient2d,
      major_axis_2d, rabs, project_to_axis_2d, Pt.coord, collides_segment_point_1d,
      Pt.mk.injEq, zeroPt, Pt.sub_def, Pt.add_def, Pt.smul_def]
  · norm_num [collides_segment_point_2d, orient2d, collides_segment_point_1d]
  · norm_num [Pt.mk.injEq]
  · norm_num [intersection_segment_segment_2d, add_if_equal_chain, add_if_equal, orient2d,
      major_axis_2d, rabs, project_to_axis_2d, Pt.coord, collides_segment_point_1d,
      Pt.mk.injEq, zeroPt, Pt.sub_def, Pt.add_def, Pt.smul_def]

/-- Claim C9: in 1D ambient space, intersecting the segment (0,2) with the
segment (1,3) returns exactly the two boundary points of the overlap, 1 and
2 (as the list [2, 1]). -/
theorem claim_C9 :
    intersection_segment_segment_1d 0 2 1 3 = [2, 1]
    ∧ (∀ x : ℚ, x ∈ intersection_segment_segment_1d 0 2 1 3 ↔ (x = 1 ∨ x = 2)) := by
  have h : intersection_segment_segment_1d 0 2 1 3 = [2, 1] := by
    norm_num [intersection_segment_segment_1d, add_if_equal_chain, add_if_equal, orient1d]
  refine ⟨h, fun x => ?_⟩
  rw [h]
  simp [or_comm]

end IntersectionConstruction

end DolfinGeometry
